import Mathlib

/-!
# Verification of the Pencil Management System wallet/contract orchestration

Shallow embedding of the two React components
(`src/src/ProjectComponents/Hero1732186907/component.tsx`, called `Hero`
below, and `src/src/ProjectComponents/Footer1732186907/component.tsx`,
called `Footer` below).  Each component is modelled as a pure state
machine: the mutable React state becomes an explicit state record, the
injected wallet provider and the remote contract become an explicit
environment record, and every provider/contract interaction performed by
an operation is recorded in a trace of actions.  Operations are the
user-triggered handlers (`createPool`, `getPool`,
`getFeeAmountTickSpacing`, `getParameters`); each is a function from the
environment and the pre-state to the post-state paired with the trace of
interactions it attempted.
-/

namespace PencilSystem

/-- The fixed target chain id (`const chainId = 1` in both components). -/
def targetChainId : Nat := 1

/-- The fixed factory contract address (both components). -/
def contractAddress : String := "0x1F98431c8aD98523631AE4a59f267346ea31F984"

/-- Error message set at mount when no injected wallet is detected
(both components). -/
def providerMissingMsg : String := "Please install MetaMask to use this dApp"

/-- Error message set when the account-authorization request rejects
(both components). -/
def connectFailMsg : String := "Failed to connect wallet"

/-- Error message set when the chain-switch request rejects
(both components). -/
def switchFailMsg : String := "Failed to switch to the correct network"

/-- Models the message of the JavaScript TypeError raised when a field of
an `undefined` value is accessed (e.g. `receipt.events[0].args` when
`events` is empty).  The exact runtime text is irrelevant to the claims;
only the fact that the access throws and is caught matters. -/
def undefinedFieldAccessMsg : String := "Cannot read properties of undefined"

/-- Decoded arguments attached to a receipt event (`event.args`), with the
`pool` field read by both components. -/
structure EventArgs where
  pool : String
  deriving DecidableEq, Repr

/-- One entry of `receipt.events`.  The `event` field (the parsed event
name, `e.event` in the source) and the `args` field may each be absent
(JavaScript `undefined`), which is how ethers represents logs that do not
match the contract interface. -/
structure ReceiptEvent where
  event : Option String
  args : Option EventArgs
  deriving DecidableEq, Repr

/-- A transaction receipt as consumed by `createPool` (`tx.wait()`). -/
structure Receipt where
  events : List ReceiptEvent
  deriving DecidableEq, Repr

/-- The decoded return tuple of the `parameters()` read call (Hero). -/
structure FactoryParameters where
  factory : String
  token0 : String
  token1 : String
  fee : Nat
  tickSpacing : Int
  deriving DecidableEq, Repr

/-- The environment: the behaviour of the injected wallet provider and of
the remote contract during one page load / one operation.  Call outcomes
are `Except`: `.error msg` models a rejection/revert whose caught
exception carries `msg` as its `error.message`. -/
structure Env where
  walletPresent : Bool
  requestAccountsOk : Bool
  networkChainId : Nat
  switchOk : Bool
  createPoolOutcome : Except String Receipt
  getPoolRet : Except String String
  feeTickRet : Except String Int
  parametersRet : Except String FactoryParameters
  deriving Repr

/-- Observable provider/contract interactions attempted by the code, in
order.  `contractCall fn` covers issuing the call named `fn` against the
bound contract handle (for `createPool` this includes awaiting the
transaction and its receipt; a failure of either lands in the same
`catch`). -/
inductive Action where
  | requestAccounts
  | getNetwork
  | switchChain
  | contractCall (fn : String)
  deriving DecidableEq, Repr

/-- `true` exactly on contract-call actions. -/
def Action.isCall : Action → Bool
  | .contractCall _ => true
  | _ => false

/-- A trace that attempts no contract call at all. -/
def callFree (t : List Action) : Prop :=
  t.all (fun a => !a.isCall) = true

instance : DecidablePred callFree := fun t =>
  inferInstanceAs (Decidable (t.all (fun a => !a.isCall) = true))

/-- Number of contract calls attempted in a trace. -/
def callCount (t : List Action) : Nat :=
  t.countP Action.isCall

/-- User-supplied arguments of one operation (Hero passes them
explicitly; they do not influence the control flow being verified). -/
structure OpArgs where
  tokenA : String
  tokenB : String
  fee : Nat
  deriving DecidableEq, Repr

/-! ## Hero component (`Hero1732186907/component.tsx`) -/

/-- React state of the Hero component: whether the `provider` and
`contract` handles are set (they are opaque; only their presence drives
control flow), plus the `error` and `result` display fields
(`useState<string | null>`). -/
structure HState where
  provider : Bool
  contract : Bool
  error : Option String
  result : Option String
  deriving DecidableEq, Repr

/-- Hero state before the mount effect runs: all handles unset, both
display fields `null`. -/
def heroBlank : HState :=
  { provider := false, contract := false, error := none, result := none }

/-- Hero `init` (the mount `useEffect`): if `window.ethereum` exists,
construct the provider, signer and contract handle; otherwise set the
install-MetaMask error. -/
def heroInit (env : Env) : HState :=
  if env.walletPresent then
    { heroBlank with provider := true, contract := true }
  else
    { heroBlank with error := some providerMissingMsg }

/-- The chain-ensuring step inside Hero `connectWallet`
(lines 75-85): read the network; if its chain id differs from the
target, request `wallet_switchEthereumChain`, setting the switch-failure
error if that request rejects. -/
def heroEnsureChain (env : Env) (s : HState) : HState × List Action :=
  if env.networkChainId ≠ targetChainId then
    if env.switchOk then
      (s, [Action.getNetwork, Action.switchChain])
    else
      ({ s with error := some switchFailMsg }, [Action.getNetwork, Action.switchChain])
  else
    (s, [Action.getNetwork])

/-- Hero `connectWallet`: a no-op when no provider handle exists;
otherwise request account authorization (on rejection set the
connect-failure error and stop), then run the chain-ensuring step. -/
def heroConnectWallet (env : Env) (s : HState) : HState × List Action :=
  if s.provider then
    if env.requestAccountsOk then
      let step := heroEnsureChain env s
      (step.1, Action.requestAccounts :: step.2)
    else
      ({ s with error := some connectFailMsg }, [Action.requestAccounts])
  else
    (s, [])

/-- The shared guard of every Hero operation:
`if (!contract) await connectWallet(); if (contract) { body }`.
`contract` is a closure constant within one invocation, so the second
test sees the same value as the first. -/
def heroGuard (env : Env) (s : HState) (body : HState → HState × List Action) :
    HState × List Action :=
  let step := if !s.contract then heroConnectWallet env s else (s, [])
  if s.contract then
    let r := body step.1
    (r.1, step.2 ++ r.2)
  else
    step

/-- State effect of the Hero `createPool` body (inside the `try`): after
the call succeeds and the receipt arrives, the result is set from
`receipt.events[0].args.pool`; any exception (call revert, network
error, or the field access throwing because `events` is empty or
`events[0].args` is absent) is caught and surfaced with the
`Failed to create pool: ` prefix. -/
def heroCreatePoolState (env : Env) (s : HState) : HState :=
  match env.createPoolOutcome with
  | .error msg => { s with error := some ("Failed to create pool: " ++ msg) }
  | .ok receipt =>
      match receipt.events with
      | [] => { s with error := some ("Failed to create pool: " ++ undefinedFieldAccessMsg) }
      | e :: _ =>
          match e.args with
          | none => { s with error := some ("Failed to create pool: " ++ undefinedFieldAccessMsg) }
          | some a => { s with result := some ("Pool created: " ++ a.pool) }

/-- State effect of the Hero `getFeeAmountTickSpacing` body. -/
def heroFeeTickState (env : Env) (fee : Nat) (s : HState) : HState :=
  match env.feeTickRet with
  | .ok tick =>
      { s with result := some ("Tick spacing for fee " ++ toString fee ++ ": " ++ toString tick) }
  | .error msg =>
      { s with error := some ("Failed to get fee amount tick spacing: " ++ msg) }

/-- State effect of the Hero `getPool` body. -/
def heroGetPoolState (env : Env) (s : HState) : HState :=
  match env.getPoolRet with
  | .ok pool => { s with result := some ("Pool address: " ++ pool) }
  | .error msg => { s with error := some ("Failed to get pool: " ++ msg) }

/-- State effect of the Hero `getParameters` body. -/
def heroParametersState (env : Env) (s : HState) : HState :=
  match env.parametersRet with
  | .ok p =>
      { s with result := some ("Factory: " ++ p.factory ++ ", Token0: " ++ p.token0 ++
          ", Token1: " ++ p.token1 ++ ", Fee: " ++ toString p.fee ++
          ", Tick Spacing: " ++ toString p.tickSpacing) }
  | .error msg => { s with error := some ("Failed to get parameters: " ++ msg) }

/-- The four user-triggered Hero operations. -/
inductive HeroOp where
  | createPool
  | getFeeAmountTickSpacing
  | getPool
  | getParameters
  deriving DecidableEq, Repr

/-- The contract function a Hero operation calls. -/
def heroOpName : HeroOp → String
  | .createPool => "createPool"
  | .getFeeAmountTickSpacing => "feeAmountTickSpacing"
  | .getPool => "getPool"
  | .getParameters => "parameters"

/-- Body of a Hero operation: attempt the single contract call and apply
its state effect. -/
def heroBody (op : HeroOp) (env : Env) (a : OpArgs) (s : HState) :
    HState × List Action :=
  match op with
  | .createPool => (heroCreatePoolState env s, [Action.contractCall "createPool"])
  | .getFeeAmountTickSpacing =>
      (heroFeeTickState env a.fee s, [Action.contractCall "feeAmountTickSpacing"])
  | .getPool => (heroGetPoolState env s, [Action.contractCall "getPool"])
  | .getParameters => (heroParametersState env s, [Action.contractCall "parameters"])

/-- Run one Hero operation from state `s` under environment `env`,
returning the final state and the trace of attempted interactions. -/
def heroRun (op : HeroOp) (env : Env) (a : OpArgs) (s : HState) :
    HState × List Action :=
  heroGuard env s (heroBody op env a)

/-- Exactly one of the Hero display fields is non-empty. -/
def heroExactlyOne (s : HState) : Prop :=
  (s.result ≠ none ∧ s.error = none) ∨ (s.result = none ∧ s.error ≠ none)

instance : DecidablePred heroExactlyOne := fun s => by
  unfold heroExactlyOne; infer_instance

/-! ## Footer component (`Footer1732186907/component.tsx`) -/

/-- React state of the Footer component.  `poolAddress` and
`errorMessage` are `useState('')` strings, so emptiness is equality with
`""`.  The form fields `tokenA`, `tokenB`, `fee` feed the call arguments
and do not influence control flow. -/
structure FState where
  provider : Bool
  signer : Bool
  contract : Bool
  tokenA : String
  tokenB : String
  fee : String
  poolAddress : String
  errorMessage : String
  deriving DecidableEq, Repr

/-- Footer state before the mount effect runs. -/
def footerBlank : FState :=
  { provider := false, signer := false, contract := false,
    tokenA := "", tokenB := "", fee := "", poolAddress := "", errorMessage := "" }

/-- Footer `init` (the mount `useEffect`). -/
def footerInit (env : Env) : FState :=
  if env.walletPresent then
    { footerBlank with provider := true, signer := true, contract := true }
  else
    { footerBlank with errorMessage := providerMissingMsg }

/-- The chain-ensuring step inside Footer `connectWallet` (lines 62-72),
identical in behaviour to the Hero one. -/
def footerEnsureChain (env : Env) (s : FState) : FState × List Action :=
  if env.networkChainId ≠ targetChainId then
    if env.switchOk then
      (s, [Action.getNetwork, Action.switchChain])
    else
      ({ s with errorMessage := switchFailMsg }, [Action.getNetwork, Action.switchChain])
  else
    (s, [Action.getNetwork])

/-- Footer `connectWallet`. -/
def footerConnectWallet (env : Env) (s : FState) : FState × List Action :=
  if s.provider then
    if env.requestAccountsOk then
      let step := footerEnsureChain env s
      (step.1, Action.requestAccounts :: step.2)
    else
      ({ s with errorMessage := connectFailMsg }, [Action.requestAccounts])
  else
    (s, [])

/-- The shared guard of every Footer operation:
`if (!contract || !signer) { await connectWallet(); if (!contract || !signer) return; }`
followed by the body.  As in Hero, `contract` and `signer` are closure
constants within one invocation. -/
def footerGuard (env : Env) (s : FState) (body : FState → FState × List Action) :
    FState × List Action :=
  if !s.contract || !s.signer then
    let step := footerConnectWallet env s
    if !s.contract || !s.signer then
      step
    else
      let r := body step.1
      (r.1, step.2 ++ r.2)
  else
    body s

/-- The predicate of `receipt.events.find(e => e.event === 'PoolCreated')`. -/
def isPoolCreatedEvent (e : ReceiptEvent) : Bool :=
  e.event == some "PoolCreated"

/-- State effect of the Footer `createPool` body: issue the call, await
the receipt, search the events for `PoolCreated`; if one is found set
its `args.pool` as the pool address and clear the error; if none is
found, change nothing.  Exceptions are caught and surfaced with the
`Failed to create pool: ` prefix. -/
def footerCreatePoolState (env : Env) (s : FState) : FState :=
  match env.createPoolOutcome with
  | .error msg => { s with errorMessage := "Failed to create pool: " ++ msg }
  | .ok receipt =>
      match receipt.events.find? isPoolCreatedEvent with
      | none => s
      | some e =>
          match e.args with
          | none => { s with errorMessage := "Failed to create pool: " ++ undefinedFieldAccessMsg }
          | some a => { s with poolAddress := a.pool, errorMessage := "" }

/-- State effect of the Footer `getPool` body: on success store the
returned address and clear the error; on failure surface the caught
message. -/
def footerGetPoolState (env : Env) (s : FState) : FState :=
  match env.getPoolRet with
  | .ok pool => { s with poolAddress := pool, errorMessage := "" }
  | .error msg => { s with errorMessage := "Failed to get pool: " ++ msg }

/-- The two user-triggered Footer operations. -/
inductive FooterOp where
  | createPool
  | getPool
  deriving DecidableEq, Repr

/-- The contract function a Footer operation calls. -/
def footerOpName : FooterOp → String
  | .createPool => "createPool"
  | .getPool => "getPool"

/-- Body of a Footer operation: attempt the single contract call and
apply its state effect. -/
def footerBody (op : FooterOp) (env : Env) (s : FState) : FState × List Action :=
  match op with
  | .createPool => (footerCreatePoolState env s, [Action.contractCall "createPool"])
  | .getPool => (footerGetPoolState env s, [Action.contractCall "getPool"])

/-- Run one Footer operation. -/
def footerRun (op : FooterOp) (env : Env) (s : FState) : FState × List Action :=
  footerGuard env s (footerBody op env)

/-- Exactly one of the Footer display fields is non-empty. -/
def footerExactlyOne (s : FState) : Prop :=
  (s.poolAddress ≠ "" ∧ s.errorMessage = "") ∨
  (s.poolAddress = "" ∧ s.errorMessage ≠ "")

instance : DecidablePred footerExactlyOne := fun s => by
  unfold footerExactlyOne; infer_instance

/-- `createPool`'s receipt handling in the Footer is decisive for `env`:
the call either fails or yields a receipt whose `PoolCreated` event is
present with decoded arguments. -/
def footerCreatePoolDecisiveB (env : Env) : Bool :=
  match env.createPoolOutcome with
  | .error _ => true
  | .ok receipt =>
      match receipt.events.find? isPoolCreatedEvent with
      | none => false
      | some e => e.args != none

/-- Propositional form of `footerCreatePoolDecisiveB`. -/
def footerCreatePoolDecisive (env : Env) : Prop :=
  footerCreatePoolDecisiveB env = true

instance : DecidablePred footerCreatePoolDecisive := fun env =>
  inferInstanceAs (Decidable (footerCreatePoolDecisiveB env = true))

/-- The all-zero pool address returned by the factory when no pool exists
for a given token pair and fee. -/
def zeroAddress : String := "0x0000000000000000000000000000000000000000"

/-- The remote layer returns non-empty address strings: the `getPool`
result and the `PoolCreated` event's `pool` argument, when present, are
not the empty string.  (The Footer represents an absent display value by
the empty string, so an empty address would be indistinguishable from no
result.) -/
def envAddressesNonEmpty (env : Env) : Bool :=
  (match env.getPoolRet with
    | .ok a => a != ""
    | .error _ => true) &&
  (match env.createPoolOutcome with
    | .error _ => true
    | .ok receipt =>
        match receipt.events.find? isPoolCreatedEvent with
        | none => true
        | some e =>
            match e.args with
            | none => true
            | some a => a.pool != "")

/-- A well-behaved concrete environment: wallet present, accounts
granted, already on the target chain, every call succeeding. -/
def envBase : Env :=
  { walletPresent := true
    requestAccountsOk := true
    networkChainId := 1
    switchOk := true
    createPoolOutcome := Except.ok
      ⟨[⟨some "PoolCreated", some ⟨"0x1111111111111111111111111111111111111111"⟩⟩]⟩
    getPoolRet := Except.ok "0x2222222222222222222222222222222222222222"
    feeTickRet := Except.ok 60
    parametersRet := Except.ok ⟨contractAddress, "0xA", "0xB", 3000, 60⟩ }

/-- `envBase` with no injected wallet. -/
def envNoWallet : Env := { envBase with walletPresent := false }

/-- `envBase` with the provider reporting a non-target network. -/
def envWrongNet : Env := { envBase with networkChainId := 5 }

/-- `envBase` where every read call fails with a revert message. -/
def envReadFail : Env :=
  { envBase with
    getPoolRet := Except.error "execution reverted"
    feeTickRet := Except.error "execution reverted"
    parametersRet := Except.error "execution reverted" }

/-- `envBase` where `getPool` returns the all-zero address (the factory's
answer when no pool exists for the queried pair and fee). -/
def envZeroPool : Env := { envBase with getPoolRet := Except.ok zeroAddress }

/-- A receipt whose single event is not the `PoolCreated` event yet still
carries decoded arguments with a `pool` field. -/
def strayEventReceipt : Receipt :=
  ⟨[⟨some "Transfer", some ⟨"0x3333333333333333333333333333333333333333"⟩⟩]⟩

/-- `envBase` where the confirmed `createPool` transaction's receipt
contains only the stray (non-`PoolCreated`) event. -/
def envStrayEvent : Env := { envBase with createPoolOutcome := Except.ok strayEventReceipt }

/-- Concrete operation arguments used by the witnesses. -/
def argsBase : OpArgs := ⟨"0xA", "0xB", 3000⟩

/-- A trace performs no interaction kind more than once. -/
def noAutoRetry (t : List Action) : Prop :=
  callCount t ≤ 1 ∧
  t.countP (· == Action.requestAccounts) ≤ 1 ∧
  t.countP (· == Action.switchChain) ≤ 1

instance : DecidablePred noAutoRetry := fun t => by
  unfold noAutoRetry; infer_instance

/-! ## Basic lemmas about the guards and traces -/

theorem heroGuard_eq (env : Env) (s : HState) (body : HState → HState × List Action) :
    heroGuard env s body = if s.contract then body s else heroConnectWallet env s := by
  cases hc : s.contract <;> simp [heroGuard, hc]

theorem footerGuard_eq (env : Env) (s : FState) (body : FState → FState × List Action) :
    footerGuard env s body =
      if s.contract && s.signer then body s else footerConnectWallet env s := by
  cases hc : s.contract <;> cases hs : s.signer <;> simp [footerGuard, hc, hs]

theorem heroRun_eq (op : HeroOp) (env : Env) (a : OpArgs) (s : HState) :
    heroRun op env a s =
      if s.contract then heroBody op env a s else heroConnectWallet env s := by
  rw [heroRun, heroGuard_eq]

theorem footerRun_eq (op : FooterOp) (env : Env) (s : FState) :
    footerRun op env s =
      if s.contract && s.signer then footerBody op env s else footerConnectWallet env s := by
  rw [footerRun, footerGuard_eq]

theorem heroBody_trace (op : HeroOp) (env : Env) (a : OpArgs) (s : HState) :
    (heroBody op env a s).2 = [Action.contractCall (heroOpName op)] := by
  cases op <;> rfl

theorem footerBody_trace (op : FooterOp) (env : Env) (s : FState) :
    (footerBody op env s).2 = [Action.contractCall (footerOpName op)] := by
  cases op <;> rfl

theorem heroConnectWallet_trace (env : Env) (s : HState) :
    (heroConnectWallet env s).2 =
      if s.provider then
        if env.requestAccountsOk then
          if env.networkChainId ≠ targetChainId then
            [Action.requestAccounts, Action.getNetwork, Action.switchChain]
          else
            [Action.requestAccounts, Action.getNetwork]
        else
          [Action.requestAccounts]
      else
        [] := by
  simp only [heroConnectWallet, heroEnsureChain]
  split_ifs <;> rfl

theorem footerConnectWallet_trace (env : Env) (s : FState) :
    (footerConnectWallet env s).2 =
      if s.provider then
        if env.requestAccountsOk then
          if env.networkChainId ≠ targetChainId then
            [Action.requestAccounts, Action.getNetwork, Action.switchChain]
          else
            [Action.requestAccounts, Action.getNetwork]
        else
          [Action.requestAccounts]
      else
        [] := by
  simp only [footerConnectWallet, footerEnsureChain]
  split_ifs <;> rfl

theorem heroConnectWallet_callFree (env : Env) (s : HState) :
    callFree (heroConnectWallet env s).2 := by
  unfold callFree
  rw [heroConnectWallet_trace]
  split_ifs <;> rfl

theorem footerConnectWallet_callFree (env : Env) (s : FState) :
    callFree (footerConnectWallet env s).2 := by
  unfold callFree
  rw [footerConnectWallet_trace]
  split_ifs <;> rfl

theorem callFree_not_mem (t : List Action) (h : callFree t) (fn : String) :
    Action.contractCall fn ∉ t := by
  intro hm
  have hall := List.all_eq_true.mp h _ hm
  simp [Action.isCall] at hall

theorem callFree_no_call_split (t : List Action) (h : callFree t) :
    ∀ fn pre post, t = pre ++ Action.contractCall fn :: post → post = [] := by
  intro fn pre post he
  exfalso
  apply callFree_not_mem t h fn
  rw [he]
  exact List.mem_append_right pre (List.mem_cons_self _ _)

theorem singleton_call_split (c : Action) :
    ∀ fn pre post, [c] = pre ++ Action.contractCall fn :: post → post = [] := by
  intro fn pre post h
  cases pre with
  | nil =>
      simp only [List.nil_append, List.cons.injEq] at h
      exact h.2.symm
  | cons x xs =>
      simp only [List.cons_append, List.cons.injEq] at h
      exact absurd h.2 (by simp)

/-- Non-emptiness of a string append whose left part is non-empty. -/
theorem append_left_ne_empty (p m : String) (h : p ≠ "") : p ++ m ≠ "" := by
  intro hc
  apply h
  have hd := congrArg String.data hc
  rw [String.data_append] at hd
  have hp : p.data = [] := (List.append_eq_nil.mp hd).1
  cases p
  cases m
  simp_all

/-! ## Claim C1 -/

/-- Claim C1 (counterexample): the claim says that after every completed
operation exactly one of {result, error} is non-empty and that setting
either field clears the other.  In the Hero component, a failed `getPool`
followed by a successful `getPool` leaves BOTH fields non-empty: setting
the result does not clear the prior error. -/
theorem C1_mutual_clear_counterexample :
    ((heroRun HeroOp.getPool envBase argsBase
        (heroRun HeroOp.getPool envReadFail argsBase (heroInit envBase)).1).1.result ≠ none) ∧
    ((heroRun HeroOp.getPool envBase argsBase
        (heroRun HeroOp.getPool envReadFail argsBase (heroInit envBase)).1).1.error ≠ none) := by
  decide

/-- Claim C1 (amended): starting from the freshly initialized
wallet-present state (both display fields empty), every completed Hero
operation ends with exactly one of {result, error} non-empty, and every
completed Footer operation does too, provided the remote layer returns
non-empty address strings and the Footer `createPool` receipt is
decisive (the call fails, or the `PoolCreated` event is present with
decoded arguments).  In general the fields are not mutually clearing:
Hero never clears either field, and the Footer clears the error on
success but never clears the result on failure; a Footer `createPool`
whose receipt lacks the `PoolCreated` event sets neither field. -/
theorem C1_exactlyOne_amended (env : Env) (a : OpArgs)
    (hw : env.walletPresent = true)
    (hdec : footerCreatePoolDecisive env)
    (hne : envAddressesNonEmpty env = true) :
    (∀ op : HeroOp, heroExactlyOne (heroRun op env a (heroInit env)).1) ∧
    (∀ op : FooterOp, footerExactlyOne (footerRun op env (footerInit env)).1) := by
  have hinit : heroInit env =
      { provider := true, contract := true, error := none, result := none } := by
    simp [heroInit, hw, heroBlank]
  have finit : footerInit env =
      { provider := true, signer := true, contract := true, tokenA := "",
        tokenB := "", fee := "", poolAddress := "", errorMessage := "" } := by
    simp [footerInit, hw, footerBlank]
  constructor
  · intro op
    rw [heroRun_eq, hinit]
    cases op
    case createPool =>
      rcases hout : env.createPoolOutcome with msg | r
      · simp [heroBody, heroCreatePoolState, hout, heroExactlyOne]
      · rcases hev : r.events with _ | ⟨e, es⟩
        · simp [heroBody, heroCreatePoolState, hout, hev, heroExactlyOne]
        · rcases har : e.args with _ | ar <;>
            simp [heroBody, heroCreatePoolState, hout, hev, har, heroExactlyOne]
    case getFeeAmountTickSpacing =>
      rcases hout : env.feeTickRet with msg | tick <;>
        simp [heroBody, heroFeeTickState, hout, heroExactlyOne]
    case getPool =>
      rcases hout : env.getPoolRet with msg | pool <;>
        simp [heroBody, heroGetPoolState, hout, heroExactlyOne]
    case getParameters =>
      rcases hout : env.parametersRet with msg | p <;>
        simp [heroBody, heroParametersState, hout, heroExactlyOne]
  · intro op
    rw [footerRun_eq, finit]
    cases op
    case createPool =>
      rcases hout : env.createPoolOutcome with msg | r
      · simp [footerBody, footerCreatePoolState, hout, footerExactlyOne]
        exact append_left_ne_empty "Failed to create pool: " msg (by decide)
      · rcases hf : r.events.find? isPoolCreatedEvent with _ | e
        · exfalso
          simp [footerCreatePoolDecisive, footerCreatePoolDecisiveB, hout, hf] at hdec
        · rcases har : e.args with _ | ar
          · exfalso
            simp [footerCreatePoolDecisive, footerCreatePoolDecisiveB, hout, hf, har] at hdec
          · have hp : ar.pool ≠ "" := by
              simp [envAddressesNonEmpty, hout, hf, har] at hne
              exact hne.2
            simp [footerBody, footerCreatePoolState, hout, hf, har, footerExactlyOne]
            exact hp
    case getPool =>
      rcases hout : env.getPoolRet with msg | pool
      · simp [footerBody, footerGetPoolState, hout, footerExactlyOne]
        exact append_left_ne_empty "Failed to get pool: " msg (by decide)
      · have hp : pool ≠ "" := by
          simp [envAddressesNonEmpty, hout] at hne
          exact hne.1
        simp [footerBody, footerGetPoolState, hout, footerExactlyOne]
        exact hp

/-- Witness for the amended C1 at a concrete environment. -/
theorem C1_exactlyOne_amended_witness :
    envBase.walletPresent = true ∧
    footerCreatePoolDecisive envBase ∧
    envAddressesNonEmpty envBase = true ∧
    heroExactlyOne (heroRun HeroOp.getPool envBase argsBase (heroInit envBase)).1 ∧
    footerExactlyOne (footerRun FooterOp.createPool envBase (footerInit envBase)).1 := by
  have h := C1_exactlyOne_amended envBase argsBase rfl (by decide) (by decide)
  exact ⟨rfl, by decide, by decide, h.1 HeroOp.getPool, h.2 FooterOp.createPool⟩

/-! ## Claim C2 -/

/-- Claim C2 (counterexample): the claim says that whenever the active
network differs from the target chain id, a switch is requested before
any contract call.  With the contract handle bound at mount and the
provider reporting chain id 5 ≠ 1, Hero `getPool` attempts the contract
call as its only interaction: no network read and no switch request
happen at all. -/
theorem C2_switch_before_call_counterexample :
    envWrongNet.networkChainId ≠ targetChainId ∧
    (heroRun HeroOp.getPool envWrongNet argsBase (heroInit envWrongNet)).2 =
      [Action.contractCall "getPool"] ∧
    Action.switchChain ∉ (heroRun HeroOp.getPool envWrongNet argsBase (heroInit envWrongNet)).2 ∧
    Action.getNetwork ∉ (heroRun HeroOp.getPool envWrongNet argsBase (heroInit envWrongNet)).2 := by
  decide

/-- Claim C2 (amended): the network is checked (and a switch possibly
requested) only inside `connectWallet`, which an operation invokes only
when its contract handle (Hero) or contract/signer handles (Footer) are
absent; in that case no contract call is attempted in that invocation at
all, whether or not the switch succeeds.  When the handles are present,
the call proceeds with no network read and no switch request. -/
theorem C2_switch_only_without_handle_amended (op : HeroOp) (fop : FooterOp)
    (env : Env) (a : OpArgs) (s : HState) (t : FState) :
    (s.contract = true →
      Action.getNetwork ∉ (heroRun op env a s).2 ∧
      Action.switchChain ∉ (heroRun op env a s).2) ∧
    (s.contract = false → callFree (heroRun op env a s).2) ∧
    (t.contract = true → t.signer = true →
      Action.getNetwork ∉ (footerRun fop env t).2 ∧
      Action.switchChain ∉ (footerRun fop env t).2) ∧
    (t.contract = false ∨ t.signer = false → callFree (footerRun fop env t).2) := by
  refine ⟨?_, ?_, ?_, ?_⟩
  · intro hc
    rw [heroRun_eq]
    simp only [hc, if_true, heroBody_trace]
    constructor <;> simp
  · intro hc
    rw [heroRun_eq]
    simp only [hc, Bool.false_eq_true, if_false]
    exact heroConnectWallet_callFree env s
  · intro hc hs
    rw [footerRun_eq]
    simp only [hc, hs, Bool.and_self, if_true, footerBody_trace]
    constructor <;> simp
  · intro hcs
    rw [footerRun_eq]
    have hand : (t.contract && t.signer) = false := by
      rcases hcs with h | h <;> simp [h]
    simp only [hand, Bool.false_eq_true, if_false]
    exact footerConnectWallet_callFree env t

/-- Witness for the amended C2: with the handle present on the wrong
network the call performs no network interaction, and with no handle at
all the run is call-free. -/
theorem C2_switch_only_without_handle_amended_witness :
    Action.getNetwork ∉ (heroRun HeroOp.getPool envWrongNet argsBase (heroInit envWrongNet)).2 ∧
    Action.switchChain ∉ (heroRun HeroOp.getPool envWrongNet argsBase (heroInit envWrongNet)).2 ∧
    callFree (footerRun FooterOp.getPool envWrongNet footerBlank).2 := by
  have h := C2_switch_only_without_handle_amended HeroOp.getPool FooterOp.getPool
    envWrongNet argsBase (heroInit envWrongNet) footerBlank
  exact ⟨(h.1 (by decide)).1, (h.1 (by decide)).2, h.2.2.2 (Or.inl (by decide))⟩

/-! ## Claim C3 -/

/-- Claim C3: a contract call is attempted only when the bound contract
handle is non-null; if the handle is absent, session establishment
(`connectWallet`) is attempted first and the operation aborts — the run
is exactly the `connectWallet` step, and its trace attempts no contract
call. -/
theorem C3_call_requires_handle (op : HeroOp) (fop : FooterOp)
    (env : Env) (a : OpArgs) (s : HState) (t : FState) :
    ((∃ fn, Action.contractCall fn ∈ (heroRun op env a s).2) → s.contract = true) ∧
    (s.contract = false →
      heroRun op env a s = heroConnectWallet env s ∧
      callFree (heroRun op env a s).2) ∧
    ((∃ fn, Action.contractCall fn ∈ (footerRun fop env t).2) →
      t.contract = true ∧ t.signer = true) ∧
    (t.contract = false ∨ t.signer = false →
      footerRun fop env t = footerConnectWallet env t ∧
      callFree (footerRun fop env t).2) := by
  refine ⟨?_, ?_, ?_, ?_⟩
  · rintro ⟨fn, hmem⟩
    by_contra hc
    have hc' : s.contract = false := by
      cases hcc : s.contract
      · rfl
      · exact absurd hcc hc
    rw [heroRun_eq] at hmem
    simp only [hc', Bool.false_eq_true, if_false] at hmem
    exact callFree_not_mem _ (heroConnectWallet_callFree env s) fn hmem
  · intro hc
    rw [heroRun_eq]
    simp only [hc, Bool.false_eq_true, if_false]
    exact ⟨trivial, heroConnectWallet_callFree env s⟩
  · rintro ⟨fn, hmem⟩
    rw [footerRun_eq] at hmem
    cases hand : (t.contract && t.signer)
    · simp only [hand, Bool.false_eq_true, if_false] at hmem
      exact absurd hmem (callFree_not_mem _ (footerConnectWallet_callFree env t) fn)
    · exact Bool.and_eq_true_iff.mp hand
  · intro hcs
    have hand : (t.contract && t.signer) = false := by
      rcases hcs with h | h <;> simp [h]
    rw [footerRun_eq]
    simp only [hand, Bool.false_eq_true, if_false]
    exact ⟨trivial, footerConnectWallet_callFree env t⟩

/-- Witness for C3: with no contract handle, `createPool` is exactly the
session-establishment step and attempts no call. -/
theorem C3_call_requires_handle_witness :
    heroRun HeroOp.createPool envBase argsBase heroBlank =
      heroConnectWallet envBase heroBlank ∧
    callFree (heroRun HeroOp.createPool envBase argsBase heroBlank).2 := by
  have h := C3_call_requires_handle HeroOp.createPool FooterOp.createPool
    envBase argsBase heroBlank footerBlank
  exact h.2.1 (by decide)

/-! ## Claim C4 -/

/-- Claim C4 (counterexample): the claim says every `createPool` inspects
the receipt's events for the recognized pool-creation event and sets no
result when none is found.  Hero `createPool` reads
`receipt.events[0].args.pool` without inspecting the event name: with a
receipt whose only event is a stray `Transfer` event (no `PoolCreated`
event anywhere), Hero still sets a result from that event's pool field. -/
theorem C4_event_inspection_counterexample :
    strayEventReceipt.events.find? isPoolCreatedEvent = none ∧
    (heroRun HeroOp.createPool envStrayEvent argsBase (heroInit envStrayEvent)).1.result =
      some "Pool created: 0x3333333333333333333333333333333333333333" := by
  decide

/-- Claim C4 (amended): the Footer `createPool` behaves as the claim
says: after the transaction is confirmed it searches the receipt's
events for the `PoolCreated` event, extracts its `pool` argument as the
result when found, and sets no result (and no error) when no such event
is present.  The Hero `createPool` instead extracts the `pool` argument
of the receipt's FIRST event, whatever its name, and sets the result
whenever that extraction succeeds. -/
theorem C4_event_extraction_amended (env : Env) (r : Receipt)
    (henv : env.createPoolOutcome = Except.ok r)
    (t : FState) (htc : t.contract = true) (hts : t.signer = true)
    (s : HState) (hsc : s.contract = true) (a : OpArgs) :
    (r.events.find? isPoolCreatedEvent = none →
      (footerRun FooterOp.createPool env t).1 = t) ∧
    (∀ e ar, r.events.find? isPoolCreatedEvent = some e → e.args = some ar →
      (footerRun FooterOp.createPool env t).1.poolAddress = ar.pool) ∧
    (∀ e rest ar, r.events = e :: rest → e.args = some ar →
      (heroRun HeroOp.createPool env a s).1.result =
        some ("Pool created: " ++ ar.pool)) := by
  refine ⟨?_, ?_, ?_⟩
  · intro hnone
    rw [footerRun_eq]
    simp [htc, hts, footerBody, footerCreatePoolState, henv, hnone]
  · intro e ar hfind har
    rw [footerRun_eq]
    simp [htc, hts, footerBody, footerCreatePoolState, henv, hfind, har]
  · intro e rest ar hev har
    rw [heroRun_eq]
    simp [hsc, heroBody, heroCreatePoolState, henv, hev, har]

/-- Witness for the amended C4 at a concrete receipt. -/
theorem C4_event_extraction_amended_witness :
    envStrayEvent.createPoolOutcome = Except.ok strayEventReceipt ∧
    (footerInit envStrayEvent).contract = true ∧
    (footerInit envStrayEvent).signer = true ∧
    (heroInit envStrayEvent).contract = true ∧
    strayEventReceipt.events.find? isPoolCreatedEvent = none ∧
    (footerRun FooterOp.createPool envStrayEvent (footerInit envStrayEvent)).1 =
      footerInit envStrayEvent := by
  have h := C4_event_extraction_amended envStrayEvent strayEventReceipt rfl
    (footerInit envStrayEvent) (by decide) (by decide)
    (heroInit envStrayEvent) (by decide) argsBase
  exact ⟨rfl, by decide, by decide, by decide, by decide, h.1 (by decide)⟩

/-! ## Claim C5 -/

/-- Claim C5: every surfaced failure is terminal for its operation.  For
every operation trace: no interaction kind is attempted more than once
(nothing is auto-retried), a contract call is always the final
interaction of the trace (a call failure is followed by no further
interaction), and when the connect/switch phase runs at all — which
happens exactly when the handles are absent — the operation attempts no
contract call whatsoever, so connect-phase failures (rejected
authorization, failed switch) end the operation with no call. -/
theorem C5_failures_terminal (op : HeroOp) (fop : FooterOp)
    (env : Env) (a : OpArgs) (s : HState) (t : FState) :
    (noAutoRetry (heroRun op env a s).2 ∧
      (∀ fn pre post,
        (heroRun op env a s).2 = pre ++ Action.contractCall fn :: post → post = []) ∧
      (s.contract = false → callFree (heroRun op env a s).2)) ∧
    (noAutoRetry (footerRun fop env t).2 ∧
      (∀ fn pre post,
        (footerRun fop env t).2 = pre ++ Action.contractCall fn :: post → post = []) ∧
      (t.contract = false ∨ t.signer = false → callFree (footerRun fop env t).2)) := by
  constructor
  · refine ⟨?_, ?_, ?_⟩
    · rw [heroRun_eq]
      cases hc : s.contract
      · simp only [Bool.false_eq_true, if_false]
        rw [heroConnectWallet_trace]
        split_ifs <;> decide
      · simp only [if_true, heroBody_trace]
        cases op <;> decide
    · rw [heroRun_eq]
      cases hc : s.contract
      · simp only [Bool.false_eq_true, if_false]
        exact callFree_no_call_split _ (heroConnectWallet_callFree env s)
      · simp only [if_true, heroBody_trace]
        exact singleton_call_split _
    · intro hc
      rw [heroRun_eq]
      simp only [hc, Bool.false_eq_true, if_false]
      exact heroConnectWallet_callFree env s
  · refine ⟨?_, ?_, ?_⟩
    · rw [footerRun_eq]
      cases hand : (t.contract && t.signer)
      · simp only [Bool.false_eq_true, if_false]
        rw [footerConnectWallet_trace]
        split_ifs <;> decide
      · simp only [if_true, footerBody_trace]
        cases fop <;> decide
    · rw [footerRun_eq]
      cases hand : (t.contract && t.signer)
      · simp only [Bool.false_eq_true, if_false]
        exact callFree_no_call_split _ (footerConnectWallet_callFree env t)
      · simp only [if_true, footerBody_trace]
        exact singleton_call_split _
    · intro hcs
      have hand : (t.contract && t.signer) = false := by
        rcases hcs with h | h <;> simp [h]
      rw [footerRun_eq]
      simp only [hand, Bool.false_eq_true, if_false]
      exact footerConnectWallet_callFree env t

/-- Witness for C5: an operation whose connect phase fails the chain
switch retries nothing and attempts no contract call. -/
theorem C5_failures_terminal_witness :
    noAutoRetry (heroRun HeroOp.createPool { envWrongNet with switchOk := false } argsBase
      { heroBlank with provider := true }).2 ∧
    callFree (heroRun HeroOp.createPool { envWrongNet with switchOk := false } argsBase
      { heroBlank with provider := true }).2 := by
  have h := C5_failures_terminal HeroOp.createPool FooterOp.createPool
    { envWrongNet with switchOk := false } argsBase
    { heroBlank with provider := true } footerBlank
  exact ⟨h.1.1, h.1.2.2 (by decide)⟩

/-! ## Claim C6 -/

/-- Claim C6: when no injected wallet is detected, the only observable
effect of mounting is the ProviderMissing error message: the post-init
state is the blank state with only that error set (in particular no
provider or contract handle and no result), and every subsequently
triggered operation — under any environment — leaves the state exactly
unchanged and performs no interaction at all. -/
theorem C6_wallet_absent_inert (env : Env) (h : env.walletPresent = false) :
    heroInit env = { heroBlank with error := some providerMissingMsg } ∧
    (∀ (op : HeroOp) (env2 : Env) (a : OpArgs),
      heroRun op env2 a (heroInit env) = (heroInit env, [])) ∧
    footerInit env = { footerBlank with errorMessage := providerMissingMsg } ∧
    (∀ (fop : FooterOp) (env2 : Env),
      footerRun fop env2 (footerInit env) = (footerInit env, [])) := by
  have hinit : heroInit env = { heroBlank with error := some providerMissingMsg } := by
    simp [heroInit, h]
  have finit : footerInit env = { footerBlank with errorMessage := providerMissingMsg } := by
    simp [footerInit, h]
  refine ⟨hinit, ?_, finit, ?_⟩
  · intro op env2 a
    rw [heroRun_eq, hinit]
    simp [heroConnectWallet, heroBlank]
  · intro fop env2
    rw [footerRun_eq, finit]
    simp [footerConnectWallet, footerBlank]

/-- Witness for C6 at a concrete wallet-absent environment. -/
theorem C6_wallet_absent_inert_witness :
    envNoWallet.walletPresent = false ∧
    heroInit envNoWallet = { heroBlank with error := some providerMissingMsg } ∧
    heroRun HeroOp.getPool envBase argsBase (heroInit envNoWallet) =
      (heroInit envNoWallet, []) ∧
    footerRun FooterOp.createPool envBase (footerInit envNoWallet) =
      (footerInit envNoWallet, []) := by
  have h := C6_wallet_absent_inert envNoWallet rfl
  exact ⟨rfl, h.1, h.2.1 HeroOp.getPool envBase argsBase, h.2.2.2 FooterOp.createPool envBase⟩

/-! ## Claim C7 -/

/-- Claim C7: when a read call fails (revert or network error), the
operation surfaces a failure whose message carries the provider's error
message text verbatim (appended unmodified to a fixed operation prefix),
and the operation leaves the result field untouched.  Shown for the
three Hero read operations and the Footer `getPool`. -/
theorem C7_read_failure_verbatim (env : Env) (a : OpArgs) (m1 m2 m3 : String)
    (s : HState) (hsc : s.contract = true)
    (t : FState) (htc : t.contract = true) (hts : t.signer = true)
    (h1 : env.getPoolRet = Except.error m1)
    (h2 : env.feeTickRet = Except.error m2)
    (h3 : env.parametersRet = Except.error m3) :
    ((heroRun HeroOp.getPool env a s).1.error = some ("Failed to get pool: " ++ m1) ∧
      (heroRun HeroOp.getPool env a s).1.result = s.result) ∧
    ((heroRun HeroOp.getFeeAmountTickSpacing env a s).1.error =
        some ("Failed to get fee amount tick spacing: " ++ m2) ∧
      (heroRun HeroOp.getFeeAmountTickSpacing env a s).1.result = s.result) ∧
    ((heroRun HeroOp.getParameters env a s).1.error =
        some ("Failed to get parameters: " ++ m3) ∧
      (heroRun HeroOp.getParameters env a s).1.result = s.result) ∧
    ((footerRun FooterOp.getPool env t).1.errorMessage = "Failed to get pool: " ++ m1 ∧
      (footerRun FooterOp.getPool env t).1.poolAddress = t.poolAddress) := by
  refine ⟨?_, ?_, ?_, ?_⟩
  · rw [heroRun_eq]
    simp [hsc, heroBody, heroGetPoolState, h1]
  · rw [heroRun_eq]
    simp [hsc, heroBody, heroFeeTickState, h2]
  · rw [heroRun_eq]
    simp [hsc, heroBody, heroParametersState, h3]
  · rw [footerRun_eq]
    simp [htc, hts, footerBody, footerGetPoolState, h1]

/-- Witness for C7 at a concrete reverting environment. -/
theorem C7_read_failure_verbatim_witness :
    (heroInit envReadFail).contract = true ∧
    envReadFail.getPoolRet = Except.error "execution reverted" ∧
    (heroRun HeroOp.getPool envReadFail argsBase (heroInit envReadFail)).1.error =
      some ("Failed to get pool: " ++ "execution reverted") ∧
    (heroRun HeroOp.getPool envReadFail argsBase (heroInit envReadFail)).1.result = none ∧
    (footerRun FooterOp.getPool envReadFail (footerInit envReadFail)).1.errorMessage =
      "Failed to get pool: " ++ "execution reverted" := by
  have h := C7_read_failure_verbatim envReadFail argsBase
    "execution reverted" "execution reverted" "execution reverted"
    (heroInit envReadFail) (by decide)
    (footerInit envReadFail) (by decide) (by decide) rfl rfl rfl
  exact ⟨by decide, rfl, h.1.1, h.1.2, h.2.2.2.1⟩

/-! ## Claim C8 -/

/-- Claim C8: the chain-ensuring step, invoked when the provider already
reports the target chain id, reads the network and then does nothing
further: no switch request is issued and the state is returned
unchanged. -/
theorem C8_ensureChain_noop (env : Env) (s : HState) (t : FState)
    (h : env.networkChainId = targetChainId) :
    heroEnsureChain env s = (s, [Action.getNetwork]) ∧
    footerEnsureChain env t = (t, [Action.getNetwork]) := by
  constructor
  · simp [heroEnsureChain, h]
  · simp [footerEnsureChain, h]

/-- Witness for C8 at the concrete on-target environment. -/
theorem C8_ensureChain_noop_witness :
    envBase.networkChainId = targetChainId ∧
    heroEnsureChain envBase (heroInit envBase) = (heroInit envBase, [Action.getNetwork]) ∧
    footerEnsureChain envBase (footerInit envBase) =
      (footerInit envBase, [Action.getNetwork]) := by
  have h := C8_ensureChain_noop envBase (heroInit envBase) (footerInit envBase) rfl
  exact ⟨rfl, h.1, h.2⟩

/-! ## Claim C9 -/

/-- Claim C9: when no provider handle was constructed at mount, every
invocation of `connectWallet` is a complete no-op: the state is returned
unchanged (in particular no error message is set for the failed
connection attempt) and no provider interaction is performed. -/
theorem C9_connect_noop_without_provider (env : Env) (s : HState) (t : FState)
    (hs : s.provider = false) (ht : t.provider = false) :
    heroConnectWallet env s = (s, []) ∧ footerConnectWallet env t = (t, []) := by
  constructor
  · simp [heroConnectWallet, hs]
  · simp [footerConnectWallet, ht]

/-- Witness for C9 at the concrete wallet-absent mount state. -/
theorem C9_connect_noop_without_provider_witness :
    (heroInit envNoWallet).provider = false ∧
    (footerInit envNoWallet).provider = false ∧
    heroConnectWallet envBase (heroInit envNoWallet) = (heroInit envNoWallet, []) ∧
    footerConnectWallet envBase (footerInit envNoWallet) = (footerInit envNoWallet, []) := by
  have h := C9_connect_noop_without_provider envBase
    (heroInit envNoWallet) (footerInit envNoWallet) (by decide) (by decide)
  exact ⟨by decide, by decide, h.1, h.2⟩

/-! ## Claim C10 -/

/-- Claim C10: a successful `getPool` stores the address returned by the
contract as the result unconditionally — the theorem holds for every
returned address, including the all-zero address reported when no pool
exists — and never surfaces an error for it: the Hero error field is
left untouched and the Footer error field is cleared. -/
theorem C10_getPool_stores_unconditionally (env : Env) (a : OpArgs) (addr : String)
    (s : HState) (hsc : s.contract = true)
    (t : FState) (htc : t.contract = true) (hts : t.signer = true)
    (h : env.getPoolRet = Except.ok addr) :
    (heroRun HeroOp.getPool env a s).1.result = some ("Pool address: " ++ addr) ∧
    (heroRun HeroOp.getPool env a s).1.error = s.error ∧
    (footerRun FooterOp.getPool env t).1.poolAddress = addr ∧
    (footerRun FooterOp.getPool env t).1.errorMessage = "" := by
  refine ⟨?_, ?_, ?_, ?_⟩
  · rw [heroRun_eq]
    simp [hsc, heroBody, heroGetPoolState, h]
  · rw [heroRun_eq]
    simp [hsc, heroBody, heroGetPoolState, h]
  · rw [footerRun_eq]
    simp [htc, hts, footerBody, footerGetPoolState, h]
  · rw [footerRun_eq]
    simp [htc, hts, footerBody, footerGetPoolState, h]

/-- Witness for C10 at the all-zero address. -/
theorem C10_getPool_stores_unconditionally_witness :
    envZeroPool.getPoolRet = Except.ok zeroAddress ∧
    (heroRun HeroOp.getPool envZeroPool argsBase (heroInit envZeroPool)).1.result =
      some ("Pool address: " ++ zeroAddress) ∧
    (heroRun HeroOp.getPool envZeroPool argsBase (heroInit envZeroPool)).1.error =
      (heroInit envZeroPool).error ∧
    (footerRun FooterOp.getPool envZeroPool (footerInit envZeroPool)).1.poolAddress =
      zeroAddress ∧
    (footerRun FooterOp.getPool envZeroPool (footerInit envZeroPool)).1.errorMessage = "" := by
  have h := C10_getPool_stores_unconditionally envZeroPool argsBase zeroAddress
    (heroInit envZeroPool) (by decide)
    (footerInit envZeroPool) (by decide) (by decide) rfl
  exact ⟨rfl, h.1, h.2.1, h.2.2.1, h.2.2.2⟩

end PencilSystem
